import Mathlib

/-!
Shallow embedding of the Telegram raffle bot (`bot.py`).

The bot keeps four JSON-backed tables: `players` (per-chat participant
entries), `pending` (pending-payment records keyed by invoice payload
token), `config` (per-chat `max_players` override) and `last_round`
(per-chat snapshot of the most recent round).  Python dicts are modelled
as insertion-ordered association lists over `String` keys; every outbound
platform call made by a handler is recorded as an `Effect`, and a
`save_json_file`/`save_all_data` call is recorded as a persist effect
carrying the table contents written to disk.  External nondeterminism
(whether an outbound call raises, what the dice reports, what the local
random draw yields) is passed in as explicit parameters.
-/

set_option maxRecDepth 4000

/-- A Python dict with string keys, as an insertion-ordered association list. -/
abbrev Table (α : Type) : Type := List (String × α)

/-- Dict lookup `t.get(k)` / `t[k]`: the value at the first matching key. -/
def tget {α : Type} : Table α → String → Option α
  | [], _ => none
  | (k', v) :: t, k => if k' = k then some v else tget t k

/-- Dict assignment `t[k] = v`: replace in place if the key is present,
else append at the end (Python dicts preserve insertion order). -/
def tinsert {α : Type} : Table α → String → α → Table α
  | [], k, v => [(k, v)]
  | (k', v') :: t, k, v => if k' = k then (k, v) :: t else (k', v') :: tinsert t k v

/-- Dict removal `t.pop(k, None)` / `t.pop(k)`: drop the key's entries. -/
def tpop {α : Type} : Table α → String → Table α
  | [], _ => []
  | (k', v') :: t, k => if k' = k then tpop t k else (k', v') :: tpop t k

theorem tget_tinsert_self {α : Type} (t : Table α) (k : String) (v : α) :
    tget (tinsert t k v) k = some v := by
  induction t with
  | nil => simp [tinsert, tget]
  | cons hd tl ih =>
    obtain ⟨k', v'⟩ := hd
    by_cases h : k' = k
    · simp [tinsert, tget, h]
    · simp [tinsert, tget, h, ih]

theorem tget_tinsert_ne {α : Type} (t : Table α) (k k' : String) (v : α)
    (h : k' ≠ k) : tget (tinsert t k v) k' = tget t k' := by
  have h' : ¬ k = k' := Ne.symm h
  induction t with
  | nil => simp [tinsert, tget, h']
  | cons hd tl ih =>
    obtain ⟨k₀, v₀⟩ := hd
    by_cases h0 : k₀ = k
    · subst h0
      simp [tinsert, tget, h']
    · by_cases h1 : k₀ = k'
      · simp [tinsert, tget, h0, h1, h]
      · simp [tinsert, tget, h0, h1, ih]

theorem tget_tpop_self {α : Type} (t : Table α) (k : String) :
    tget (tpop t k) k = none := by
  induction t with
  | nil => simp [tpop, tget]
  | cons hd tl ih =>
    obtain ⟨k', v'⟩ := hd
    by_cases h : k' = k
    · simp [tpop, h, ih]
    · simp [tpop, tget, h, ih]

theorem tget_tpop_ne {α : Type} (t : Table α) (k k' : String)
    (h : k' ≠ k) : tget (tpop t k) k' = tget t k' := by
  have h' : ¬ k = k' := Ne.symm h
  induction t with
  | nil => simp [tpop]
  | cons hd tl ih =>
    obtain ⟨k₀, v₀⟩ := hd
    by_cases h0 : k₀ = k
    · subst h0
      simp [tpop, tget, h', ih]
    · by_cases h1 : k₀ = k'
      · simp [tpop, tget, h0, h1, h]
      · simp [tpop, tget, h0, h1, ih]

/-- One value of `players[ck]`: `{"username": ..., "choice": ...}`. -/
structure PlayerInfo where
  username : String
  choice : Nat
deriving DecidableEq, Repr

/-- One value of `pending[payload]`:
`{"chat_id": ck, "user_id": uk, "username": ..., "choice": ...}`. -/
structure PendingRec where
  chat_id : String
  user_id : String
  username : String
  choice : Nat
deriving DecidableEq, Repr

/-- One value of `last_round[ck]`: `{"result": ..., "winners": [...]}`. -/
structure RoundInfo where
  result : Nat
  winners : List String
deriving DecidableEq, Repr

/-- The four in-memory tables of `bot.py` (`players`, `pending`, `config`,
`last_round`).  A `config[ck]` record holds only its `max_players` field,
so the table is flattened to that integer. -/
structure BotState where
  players : Table (Table PlayerInfo)
  pending : Table PendingRec
  config : Table Int
  last_round : Table RoundInfo
deriving DecidableEq, Repr

/-- Observable actions of a handler: each constructor corresponds to one
outbound-call site or persistence call in `bot.py`.  A raised outbound
call emits no effect.  Persist effects carry the table contents written. -/
inductive Effect where
  | replyNotFound
  | replyAccepted (choice : Nat)
  | groupCount (chat : String) (uname : String) (cnt : Nat) (maxp : Int)
  | scheduleExecution (chat : String)
  | persistAll (players : Table (Table PlayerInfo)) (pending : Table PendingRec)
      (config : Table Int) (lastRound : Table RoundInfo)
  | persistConfig (config : Table Int)
  | persistLastRound (lastRound : Table RoundInfo)
  | replyNeedUsername (firstName : String)
  | replyAlready (firstName : String)
  | sendInvoice (userId : String) (payload : String) (choice : Nat)
  | replyInvoiceSent
  | replyInvoiceFailed (firstName : String)
  | replyGroupOnly (cmd : String)
  | replyAdminOnly (cmd : String)
  | replyStatus (cnt : Nat) (maxp : Int)
  | replyReset
  | replyCurrentLimit (maxp : Int)
  | replyUsage
  | replyLimitSet (n : Int)
  | replyForceStart (cnt : Nat)
  | replyCannotDetermine
  | replyNoData
  | replyWinners (result : Nat) (winners : List String)
  | sendDice (chat : String)
  | announce (chat : String) (result : Nat) (winners : List String)
  | sendErrorNotice (chat : String)
deriving DecidableEq, Repr

/-- `get_max_players_for_chat`: per-chat override from `config`, else the
process-wide default `DEFAULT_MAX_PLAYERS` (here the parameter `d`). -/
def get_max_players_for_chat (d : Int) (cfg : Table Int) (ck : String) : Int :=
  (tget cfg ck).getD d

/-- `successful_payment_handler`: `payload` is `s.invoice_payload` of the
confirmation (`none` when absent).  `if not payload or payload not in
pending` replies "no matching round"; otherwise the token is popped from
`pending`, the entry is inserted into `players[ck]`, both mutations are
persisted, the payer and the group are notified, and round execution is
scheduled when `len(players[ck]) >= get_max_players_for_chat(ck)`. -/
def successful_payment_handler (d : Int) (st : BotState) (payload : Option String) :
    BotState × List Effect :=
  match payload with
  | none => (st, [Effect.replyNotFound])
  | some p =>
    if p = "" then (st, [Effect.replyNotFound])
    else
      match tget st.pending p with
      | none => (st, [Effect.replyNotFound])
      | some pr =>
        let pending1 := tpop st.pending p
        let ck := pr.chat_id
        let chatP := (tget st.players ck).getD []
        let chatP1 := tinsert chatP pr.user_id ⟨pr.username, pr.choice⟩
        let players1 := tinsert st.players ck chatP1
        let maxp := get_max_players_for_chat d st.config ck
        (⟨players1, pending1, st.config, st.last_round⟩,
         [Effect.persistAll st.players pending1 st.config st.last_round,
          Effect.persistAll players1 pending1 st.config st.last_round,
          Effect.replyAccepted pr.choice,
          Effect.groupCount ck pr.username chatP1.length maxp] ++
         (if (chatP1.length : Int) ≥ maxp then [Effect.scheduleExecution ck] else []))

/-- Python `str.strip()`: drop leading and trailing whitespace
(ASCII whitespace in this model). -/
def pyStrip (s : String) : String :=
  ⟨((s.data.dropWhile Char.isWhitespace).reverse.dropWhile Char.isWhitespace).reverse⟩

/-- Python `str.isdigit()`: nonempty and every character a digit
(restricted to ASCII digits in this model). -/
def isdigitStr (s : String) : Bool :=
  !s.data.isEmpty && s.data.all Char.isDigit

/-- Numeric value of a digit string (what `int(text)` returns once
`text.isdigit()` holds). -/
def digitsVal (cs : List Char) : Nat :=
  cs.foldl (fun n c => n * 10 + (c.toNat - 48)) 0

def strToNat (s : String) : Nat := digitsVal s.data

/-- Python `int(arg)` on a whitespace-free token: optional sign followed
by at least one digit, else a `ValueError` (`none`). -/
def pyInt (s : String) : Option Int :=
  match s.data with
  | [] => none
  | c :: rest =>
    if c = '-' then
      if !rest.isEmpty && rest.all Char.isDigit then some (-(digitsVal rest : Int)) else none
    else if c = '+' then
      if !rest.isEmpty && rest.all Char.isDigit then some ((digitsVal rest : Int)) else none
    else if (c :: rest).all Char.isDigit then some ((digitsVal (c :: rest) : Int)) else none

/-- An inbound group message: the fields of `update` that
`handle_group_message` reads.  `chatId`/`userId` are already rendered
through `chat_key`/`user_key` (`str(...)`). -/
structure Msg where
  chatType : String
  chatId : String
  userId : String
  username : Option String
  firstName : String
  text : String
deriving DecidableEq, Repr

/-- `handle_group_message`: validation in order (group context, stripped
text all digits, value in [1,6], sender has a username, sender not already
entered), then a Pending record is created under the fresh token
`freshTok` (the `participation:<uuid4>` payload), persisted, and an
invoice is requested.  `invoiceFails` says whether `send_invoice` raises;
on failure the handler replies, pops the record back out and persists. -/
def handle_group_message (st : BotState) (m : Msg) (freshTok : String)
    (invoiceFails : Bool) : BotState × List Effect :=
  if ¬ (m.chatType = "group" ∨ m.chatType = "supergroup") then (st, [])
  else
    let text := pyStrip m.text
    if ¬ isdigitStr text then (st, [])
    else
      let choice := strToNat text
      if choice < 1 ∨ 6 < choice then (st, [])
      else
        match m.username with
        | none => (st, [Effect.replyNeedUsername m.firstName])
        | some uname =>
          let ck := m.chatId
          let players0 :=
            if tget st.players ck = none then tinsert st.players ck [] else st.players
          let chatP := (tget players0 ck).getD []
          if (tget chatP m.userId).isSome then
            (⟨players0, st.pending, st.config, st.last_round⟩,
             [Effect.replyAlready m.firstName])
          else
            let pr : PendingRec := ⟨ck, m.userId, "@" ++ uname, choice⟩
            let pending1 := tinsert st.pending freshTok pr
            if invoiceFails then
              (⟨players0, tpop pending1 freshTok, st.config, st.last_round⟩,
               [Effect.persistAll players0 pending1 st.config st.last_round,
                Effect.replyInvoiceFailed m.firstName,
                Effect.persistAll players0 (tpop pending1 freshTok) st.config st.last_round])
            else
              (⟨players0, pending1, st.config, st.last_round⟩,
               [Effect.persistAll players0 pending1 st.config st.last_round,
                Effect.sendInvoice m.userId freshTok choice,
                Effect.replyInvoiceSent])

/-- External nondeterminism of `execute_round`: whether `send_dice`
raises, the dice value it reports (`none` when the reply carries no
truthy `dice.value`), the value `random.randint(1, 6)` would yield, and
whether the announcement `send_message` or the error-notice
`send_message` raises. -/
structure ExecEnv where
  sendDiceRaises : Bool
  diceOutcome : Option Nat
  localDraw : Nat
  announceRaises : Bool
  errorNoticeRaises : Bool
deriving DecidableEq, Repr

/-- The draw used by `execute_round`: the platform dice value when it
reported one, else the local `random.randint(1, 6)` fallback. -/
def diceResult (env : ExecEnv) : Nat :=
  env.diceOutcome.getD env.localDraw

/-- `[info["username"] for info in players.get(ck, {}).values() if
info["choice"] == result]`, in insertion order. -/
def computeWinners (entries : Table PlayerInfo) (result : Nat) : List String :=
  entries.filterMap fun kv => if kv.2.choice = result then some kv.2.username else none

/-- `execute_round`: roll the dice (platform value or local fallback),
compute winners, announce, snapshot `last_round[ck]` and persist it; any
exception in those steps is caught and a best-effort error notice sent;
the `finally` block always pops `players[ck]` and persists all tables. -/
def execute_round (st : BotState) (ck : String) (env : ExecEnv) :
    BotState × List Effect :=
  if env.sendDiceRaises then
    (⟨tpop st.players ck, st.pending, st.config, st.last_round⟩,
     (if env.errorNoticeRaises then [] else [Effect.sendErrorNotice ck]) ++
       [Effect.persistAll (tpop st.players ck) st.pending st.config st.last_round])
  else
    let result := diceResult env
    let ws := computeWinners ((tget st.players ck).getD []) result
    if env.announceRaises then
      (⟨tpop st.players ck, st.pending, st.config, st.last_round⟩,
       [Effect.sendDice ck] ++
         (if env.errorNoticeRaises then [] else [Effect.sendErrorNotice ck]) ++
         [Effect.persistAll (tpop st.players ck) st.pending st.config st.last_round])
    else
      let lr1 := tinsert st.last_round ck ⟨result, ws⟩
      (⟨tpop st.players ck, st.pending, st.config, lr1⟩,
       [Effect.sendDice ck, Effect.announce ck result ws,
        Effect.persistLastRound lr1,
        Effect.persistAll (tpop st.players ck) st.pending st.config lr1])

/-- `/status`: group-scoped, replies `count/threshold` for the chat. -/
def status_cmd (d : Int) (st : BotState) (chatType ck : String) :
    BotState × List Effect :=
  if ¬ (chatType = "group" ∨ chatType = "supergroup") then
    (st, [Effect.replyGroupOnly "status"])
  else
    (st, [Effect.replyStatus ((tget st.players ck).getD []).length
            (get_max_players_for_chat d st.config ck)])

/-- `/reset`: group-scoped and admin-only; `players.pop(ck, None)` then
`save_all_data()`.  `isAdmin` is the result of `is_user_admin` (lookup
failure already folded in as `false`). -/
def reset_cmd (st : BotState) (chatType ck : String) (isAdmin : Bool) :
    BotState × List Effect :=
  if ¬ (chatType = "group" ∨ chatType = "supergroup") then
    (st, [Effect.replyGroupOnly "reset"])
  else if ¬ isAdmin then (st, [Effect.replyAdminOnly "reset"])
  else
    (⟨tpop st.players ck, st.pending, st.config, st.last_round⟩,
     [Effect.persistAll (tpop st.players ck) st.pending st.config st.last_round,
      Effect.replyReset])

/-- `/setlimit`: group-scoped and admin-only; no argument reports the
current limit; `int(args[0])` > 0 stores the new per-chat limit in
`config` and persists it; a parse failure or non-positive value replies
with the usage hint. -/
def setlimit_cmd (d : Int) (st : BotState) (chatType ck : String)
    (isAdmin : Bool) (args : List String) : BotState × List Effect :=
  if ¬ (chatType = "group" ∨ chatType = "supergroup") then
    (st, [Effect.replyGroupOnly "setlimit"])
  else if ¬ isAdmin then (st, [Effect.replyAdminOnly "setlimit"])
  else
    match args with
    | [] => (st, [Effect.replyCurrentLimit (get_max_players_for_chat d st.config ck)])
    | a :: _ =>
      match pyInt a with
      | none => (st, [Effect.replyUsage])
      | some n =>
        if n ≤ 0 then (st, [Effect.replyUsage])
        else
          (⟨st.players, st.pending, tinsert st.config ck n, st.last_round⟩,
           [Effect.persistConfig (tinsert st.config ck n), Effect.replyLimitSet n])

/-- `/forcestart`: group-scoped and admin-only; reports the current count
and schedules `execute_round` for the chat. -/
def forcestart_cmd (st : BotState) (chatType ck : String) (isAdmin : Bool) :
    BotState × List Effect :=
  if ¬ (chatType = "group" ∨ chatType = "supergroup") then
    (st, [Effect.replyGroupOnly "forcestart"])
  else if ¬ isAdmin then (st, [Effect.replyAdminOnly "forcestart"])
  else
    (st, [Effect.replyForceStart ((tget st.players ck).getD []).length,
          Effect.scheduleExecution ck])

/-- `/winners`: reads `last_round.get(ck)` and reports the snapshot or a
no-data message.  The source performs no chat-type check here, so the
`chatType` parameter (carried for comparison with the other commands) is
never consulted; `ck` is `none` when `update.effective_chat` is absent. -/
def winners_cmd (st : BotState) (chatType : String) (ck : Option String) :
    BotState × List Effect :=
  match ck with
  | none => (st, [Effect.replyCannotDetermine])
  | some c =>
    match tget st.last_round c with
    | none => (st, [Effect.replyNoData])
    | some dta => (st, [Effect.replyWinners dta.result dta.winners])

/-- `len(players.get(ck, {}))`: the chat's current entry count. -/
def countOf (st : BotState) (ck : String) : Nat :=
  ((tget st.players ck).getD []).length

/-- C1: every pending-payment token is consumed at most once.  When the
confirmation carries a token present in `pending`, reconciliation removes
the token and inserts the entry into the chat's round state, and a second
reconciliation of the same token then finds it absent, replies that no
matching round was found and mutates nothing; when the token is absent
from `pending`, the handler replies "not found" and mutates no table. -/
theorem C1_token_consumed_at_most_once (d : Int) (st : BotState) (p : String)
    (hp : p ≠ "") :
    (∀ pr : PendingRec, tget st.pending p = some pr →
      tget (successful_payment_handler d st (some p)).1.pending p = none ∧
      tget ((tget (successful_payment_handler d st (some p)).1.players pr.chat_id).getD [])
          pr.user_id = some ⟨pr.username, pr.choice⟩ ∧
      successful_payment_handler d (successful_payment_handler d st (some p)).1 (some p) =
        ((successful_payment_handler d st (some p)).1, [Effect.replyNotFound])) ∧
    (tget st.pending p = none →
      successful_payment_handler d st (some p) = (st, [Effect.replyNotFound])) := by
  constructor
  · intro pr hpr
    simp only [successful_payment_handler, hp, if_false, hpr]
    refine ⟨tget_tpop_self _ _, ?_, ?_⟩
    · rw [tget_tinsert_self]
      simp [tget_tinsert_self]
    · simp [successful_payment_handler, hp, tget_tpop_self]
  · intro hnone
    simp [successful_payment_handler, hp, hnone]

/-- Witness for C1 at a concrete state: one pending token, consumed and
promoted; its hypotheses hold at `stC1`. -/
theorem C1_witness :
    tget (successful_payment_handler 100
        ⟨[], [("tok", ⟨"1", "7", "@a", 3⟩)], [], []⟩ (some "tok")).1.pending "tok" = none ∧
    tget ((tget (successful_payment_handler 100
        ⟨[], [("tok", ⟨"1", "7", "@a", 3⟩)], [], []⟩ (some "tok")).1.players "1").getD [])
        "7" = some ⟨"@a", 3⟩ := by
  have h := C1_token_consumed_at_most_once 100
    ⟨[], [("tok", ⟨"1", "7", "@a", 3⟩)], [], []⟩ "tok" (by decide)
  exact ⟨(h.1 ⟨"1", "7", "@a", 3⟩ (by decide)).1, (h.1 ⟨"1", "7", "@a", 3⟩ (by decide)).2.1⟩

/-- C2: after `execute_round` finishes for a chat, that chat's entry in
the Players table is absent, regardless of whether winners were found or
the dice-roll, announcement or snapshot steps raised an error. -/
theorem C2_round_execution_clears_round_state (st : BotState) (ck : String)
    (env : ExecEnv) :
    tget (execute_round st ck env).1.players ck = none := by
  unfold execute_round
  cases h1 : env.sendDiceRaises <;> cases h2 : env.announceRaises <;>
    simp [h1, h2, tget_tpop_self]

/-- C3: a successful reconciliation schedules round execution for the
chat iff the chat's entry count after insertion reaches the chat's
threshold; consequently, when it does not trigger, count ≤ threshold
holds for every chat, given that every other chat already satisfied the
bound before the reconciliation. -/
theorem C3_threshold_trigger_iff (d : Int) (st : BotState) (p : String)
    (pr : PendingRec) (hp : p ≠ "") (hpr : tget st.pending p = some pr)
    (hinv : ∀ c, c ≠ pr.chat_id →
      (countOf st c : Int) ≤ get_max_players_for_chat d st.config c) :
    (Effect.scheduleExecution pr.chat_id ∈ (successful_payment_handler d st (some p)).2 ↔
      (countOf (successful_payment_handler d st (some p)).1 pr.chat_id : Int) ≥
        get_max_players_for_chat d
          (successful_payment_handler d st (some p)).1.config pr.chat_id) ∧
    (Effect.scheduleExecution pr.chat_id ∉ (successful_payment_handler d st (some p)).2 →
      ∀ c, (countOf (successful_payment_handler d st (some p)).1 c : Int) ≤
        get_max_players_for_chat d (successful_payment_handler d st (some p)).1.config c) := by
  simp only [successful_payment_handler, hp, if_false, hpr]
  set chatP1 := tinsert ((tget st.players pr.chat_id).getD []) pr.user_id
    ⟨pr.username, pr.choice⟩ with hchatP1
  have hcount : countOf ⟨tinsert st.players pr.chat_id chatP1, tpop st.pending p,
      st.config, st.last_round⟩ pr.chat_id = chatP1.length := by
    simp [countOf, tget_tinsert_self]
  constructor
  · by_cases hth : (chatP1.length : Int) ≥ get_max_players_for_chat d st.config pr.chat_id <;>
      simp [hth, hcount]
  · intro hnot c
    by_cases hc : c = pr.chat_id
    · subst hc
      by_cases hth : (chatP1.length : Int) ≥ get_max_players_for_chat d st.config pr.chat_id
      · exact absurd (by simp [hth]) hnot
      · simp only [hcount]
        omega
    · have : countOf ⟨tinsert st.players pr.chat_id chatP1, tpop st.pending p,
          st.config, st.last_round⟩ c = countOf st c := by
        simp [countOf, tget_tinsert_ne _ _ _ _ hc]
      simp only [this]
      exact hinv c hc

/-- Witness for C3 at a concrete state: threshold 2 for the chat, first
payment confirmed, no trigger, and the bound holds for every chat. -/
theorem C3_witness :
    (Effect.scheduleExecution "1" ∉ (successful_payment_handler 2
        ⟨[], [("tok", ⟨"1", "7", "@a", 3⟩)], [], []⟩ (some "tok")).2) ∧
    ∀ c, (countOf (successful_payment_handler 2
        ⟨[], [("tok", ⟨"1", "7", "@a", 3⟩)], [], []⟩ (some "tok")).1 c : Int) ≤
      get_max_players_for_chat 2 (successful_payment_handler 2
        ⟨[], [("tok", ⟨"1", "7", "@a", 3⟩)], [], []⟩ (some "tok")).1.config c := by
  have h := C3_threshold_trigger_iff 2 ⟨[], [("tok", ⟨"1", "7", "@a", 3⟩)], [], []⟩
    "tok" ⟨"1", "7", "@a", 3⟩ (by decide) (by decide)
    (by intro c _; simp [countOf, tget, get_max_players_for_chat])
  have hnot : Effect.scheduleExecution "1" ∉ (successful_payment_handler 2
      ⟨[], [("tok", ⟨"1", "7", "@a", 3⟩)], [], []⟩ (some "tok")).2 := by decide
  exact ⟨hnot, h.2 hnot⟩

theorem tpop_tinsert_self {α : Type} (t : Table α) (k : String) (v : α) :
    tpop (tinsert t k v) k = tpop t k := by
  induction t with
  | nil => simp [tinsert, tpop]
  | cons hd tl ih =>
    obtain ⟨k₀, v₀⟩ := hd
    by_cases h0 : k₀ = k <;> simp [tinsert, tpop, h0, ih]

theorem tpop_not_mem {α : Type} (t : Table α) (k : String)
    (h : tget t k = none) : tpop t k = t := by
  induction t with
  | nil => simp [tpop]
  | cons hd tl ih =>
    obtain ⟨k₀, v₀⟩ := hd
    by_cases h0 : k₀ = k
    · simp [tget, h0] at h
    · simp [tget, h0] at h
      simp [tpop, h0, ih h]

/-- C4: when the invoice request issued after creating a Pending record
fails, the handler deletes the just-created record (restoring the Pending
table when the token was fresh), notifies the group of the failure, and
the final persisted snapshot equals the post-rollback tables — so no
Pending record for that attempt remains afterward. -/
theorem C4_invoice_failure_rolls_back (st : BotState) (m : Msg) (tok uname : String)
    (hgroup : m.chatType = "group" ∨ m.chatType = "supergroup")
    (hdigit : isdigitStr (pyStrip m.text) = true)
    (hlo : 1 ≤ strToNat (pyStrip m.text)) (hhi : strToNat (pyStrip m.text) ≤ 6)
    (huser : m.username = some uname)
    (hnew : tget ((tget st.players m.chatId).getD []) m.userId = none) :
    tget (handle_group_message st m tok true).1.pending tok = none ∧
    (tget st.pending tok = none →
      (handle_group_message st m tok true).1.pending = st.pending) ∧
    Effect.replyInvoiceFailed m.firstName ∈ (handle_group_message st m tok true).2 ∧
    (handle_group_message st m tok true).2.getLast? =
      some (Effect.persistAll (handle_group_message st m tok true).1.players
        (handle_group_message st m tok true).1.pending
        (handle_group_message st m tok true).1.config
        (handle_group_message st m tok true).1.last_round) := by
  have hrange : ¬ (strToNat (pyStrip m.text) < 1 ∨ 6 < strToNat (pyStrip m.text)) := by
    omega
  have hchatP : (tget (if tget st.players m.chatId = none
        then tinsert st.players m.chatId [] else st.players) m.chatId).getD [] =
      (tget st.players m.chatId).getD [] := by
    by_cases h : tget st.players m.chatId = none
    · simp [h, tget_tinsert_self]
    · simp [h]
  rcases hgroup with hg | hg <;>
  · simp only [handle_group_message, hg, hdigit, hrange, huser, hchatP, hnew]
    simp only [String.reduceEq, or_false, false_or, or_true, true_or, not_true_eq_false,
      not_false_eq_true, if_false, if_true, ite_false, ite_true, Bool.not_true,
      Option.isSome_none, Bool.false_eq_true, List.getLast?]
    refine ⟨tget_tpop_self _ _, ?_, by simp, by simp⟩
    intro hfresh
    rw [tpop_tinsert_self, tpop_not_mem _ _ hfresh]

/-- Witness for C4 at a concrete state: a fresh token rolled back after
an invoice failure. -/
theorem C4_witness :
    tget (handle_group_message ⟨[], [], [], []⟩
        ⟨"group", "1", "7", some "alice", "A", "3"⟩ "tok" true).1.pending "tok" = none ∧
    (handle_group_message ⟨[], [], [], []⟩
        ⟨"group", "1", "7", some "alice", "A", "3"⟩ "tok" true).1.pending = [] ∧
    Effect.replyInvoiceFailed "A" ∈ (handle_group_message ⟨[], [], [], []⟩
        ⟨"group", "1", "7", some "alice", "A", "3"⟩ "tok" true).2 := by
  have h := C4_invoice_failure_rolls_back ⟨[], [], [], []⟩
    ⟨"group", "1", "7", some "alice", "A", "3"⟩ "tok" "alice"
    (Or.inl rfl) (by decide) (by decide) (by decide) rfl (by decide)
  exact ⟨h.1, h.2.1 rfl, h.2.2.1⟩

/-- C5 counterexample: the source strips the text before testing
`isdigit`, so the message text " 3 " — not exactly a decimal integer
literal — is admitted rather than ignored: it creates a Pending record,
mutating the Pending table. -/
theorem C5_counterexample :
    isdigitStr " 3 " = false ∧
    (handle_group_message ⟨[], [], [], []⟩
        ⟨"group", "1", "7", some "alice", "A", " 3 "⟩ "tok" false).1.pending ≠
      ([] : Table PendingRec) := by
  decide

/-- C5 (amended): for every group-message text that, after stripping
leading and trailing whitespace, is not a nonempty digit string — or
whose numeric value lies outside [1,6] — the admission handler returns
with no reply and no table mutated. -/
theorem C5_malformed_text_ignored (st : BotState) (m : Msg)
    (tok : String) (invoiceFails : Bool)
    (h : isdigitStr (pyStrip m.text) = false ∨
      strToNat (pyStrip m.text) < 1 ∨ 6 < strToNat (pyStrip m.text)) :
    handle_group_message st m tok invoiceFails = (st, []) := by
  unfold handle_group_message
  by_cases hg : m.chatType = "group" ∨ m.chatType = "supergroup"
  · rcases h with h | h | h
    · simp [hg, h]
    · have h0 : strToNat (pyStrip m.text) = 0 := by omega
      cases hd : isdigitStr (pyStrip m.text)
      · simp [hg, hd]
      · simp [hg, hd, h0]
    · cases hd : isdigitStr (pyStrip m.text)
      · simp [hg, hd]
      · simp [hg, hd, h]
  · simp [hg]

/-- Witness for C5 at a concrete input: the digit text "7" is out of
range and silently ignored. -/
theorem C5_witness :
    handle_group_message ⟨[], [], [], []⟩
      ⟨"group", "1", "7", some "alice", "A", "7"⟩ "tok" false = (⟨[], [], [], []⟩, []) :=
  C5_malformed_text_ignored ⟨[], [], [], []⟩
    ⟨"group", "1", "7", some "alice", "A", "7"⟩ "tok" false (by decide)

/-- C6 counterexample: an exception raised by the `send_dice` call itself
is not handled by the local fallback — control jumps to the except block,
so the round aborts: with one entry guessing 4 the whole execution yields
only the error notice and the cleanup persist, with no announcement of
any result and no snapshot written, refuting "publishes an announcement
rather than aborting" for this failure of the platform dice-roll. -/
theorem C6_counterexample :
    execute_round ⟨[("1", [("7", ⟨"@a", 4⟩)])], [], [], []⟩ "1"
        ⟨true, none, 4, false, false⟩ =
      (⟨[], [], [], []⟩,
       [Effect.sendErrorNotice "1", Effect.persistAll [] [] [] []]) := by
  decide

/-- C6 (amended): when the dice call succeeds but the platform reports no
value, `execute_round` falls back to the local random draw in [1,6]: it
still computes the winners from the chat's entries, publishes the
announcement with that result, and snapshots it, rather than aborting the
round.  (An exception from the dice call itself instead aborts to the
error path, with only the cleanup running.) -/
theorem C6_dice_fallback_to_local_draw (st : BotState) (ck : String) (env : ExecEnv)
    (h1 : env.sendDiceRaises = false) (h2 : env.diceOutcome = none)
    (h3 : env.announceRaises = false)
    (h4 : 1 ≤ env.localDraw) (h5 : env.localDraw ≤ 6) :
    Effect.announce ck env.localDraw
        (computeWinners ((tget st.players ck).getD []) env.localDraw) ∈
      (execute_round st ck env).2 ∧
    tget (execute_round st ck env).1.last_round ck =
      some ⟨env.localDraw, computeWinners ((tget st.players ck).getD []) env.localDraw⟩ ∧
    1 ≤ env.localDraw ∧ env.localDraw ≤ 6 := by
  have hres : diceResult env = env.localDraw := by simp [diceResult, h2]
  unfold execute_round
  simp [h1, h3, hres, tget_tinsert_self, h4, h5]

/-- Witness for C6 at a concrete state: one entry guessing 4, the
platform reports no dice value, the local draw is 4. -/
theorem C6_witness :
    Effect.announce "1" 4 ["@a"] ∈ (execute_round ⟨[("1", [("7", ⟨"@a", 4⟩)])], [], [], []⟩
        "1" ⟨false, none, 4, false, false⟩).2 ∧
    tget (execute_round ⟨[("1", [("7", ⟨"@a", 4⟩)])], [], [], []⟩
        "1" ⟨false, none, 4, false, false⟩).1.last_round "1" = some ⟨4, ["@a"]⟩ := by
  have h := C6_dice_fallback_to_local_draw ⟨[("1", [("7", ⟨"@a", 4⟩)])], [], [], []⟩
    "1" ⟨false, none, 4, false, false⟩ rfl rfl rfl (by decide) (by decide)
  exact ⟨h.1, h.2.1⟩

/-- C7 counterexample: `/winners` performs no chat-type check in the
source, so invoked from a private-type chat whose key holds a Last Round
Snapshot it reports that round data instead of refusing. -/
theorem C7_counterexample :
    winners_cmd ⟨[], [], [], [("5", ⟨4, ["@a"]⟩)]⟩ "private" (some "5") =
      (⟨[], [], [], [("5", ⟨4, ["@a"]⟩)]⟩, [Effect.replyWinners 4 ["@a"]]) := by
  decide

/-- C7 (amended): `/status`, `/reset`, `/setlimit` and `/forcestart` are
group-scoped — outside a group or supergroup each refuses and mutates
nothing — but `/winners` has no chat-type check: outside a group it
behaves exactly as inside one (reporting the chat's snapshot, or a
no-data message), though it never mutates any table. -/
theorem C7_group_scoping (st : BotState) (d : Int) (ct ck : String) (adm : Bool)
    (args : List String) (h1 : ct ≠ "group") (h2 : ct ≠ "supergroup") :
    (winners_cmd st ct (some ck)).1 = st ∧
    winners_cmd st ct (some ck) = winners_cmd st "group" (some ck) ∧
    status_cmd d st ct ck = (st, [Effect.replyGroupOnly "status"]) ∧
    reset_cmd st ct ck adm = (st, [Effect.replyGroupOnly "reset"]) ∧
    setlimit_cmd d st ct ck adm args = (st, [Effect.replyGroupOnly "setlimit"]) ∧
    forcestart_cmd st ct ck adm = (st, [Effect.replyGroupOnly "forcestart"]) := by
  have hng : ¬ (ct = "group" ∨ ct = "supergroup") := by
    rintro (h | h)
    · exact h1 h
    · exact h2 h
  refine ⟨?_, rfl, ?_, ?_, ?_, ?_⟩
  · cases h : tget st.last_round ck <;> simp [winners_cmd, h]
  · simp [status_cmd, hng]
  · simp [reset_cmd, hng]
  · simp [setlimit_cmd, hng]
  · simp [forcestart_cmd, hng]

/-- Witness for C7 at a concrete state: a private-type invocation leaves
the state unchanged, and `/status` refuses there. -/
theorem C7_witness :
    (winners_cmd ⟨[], [], [], [("5", ⟨4, ["@a"]⟩)]⟩ "private" (some "5")).1 =
      ⟨[], [], [], [("5", ⟨4, ["@a"]⟩)]⟩ ∧
    status_cmd 100 ⟨[], [], [], [("5", ⟨4, ["@a"]⟩)]⟩ "private" "5" =
      (⟨[], [], [], [("5", ⟨4, ["@a"]⟩)]⟩, [Effect.replyGroupOnly "status"]) := by
  have h := C7_group_scoping ⟨[], [], [], [("5", ⟨4, ["@a"]⟩)]⟩ 100 "private" "5"
    false [] (by decide) (by decide)
  exact ⟨h.1, h.2.2.1⟩

/-- C8: for an admin `/setlimit` in a group: a positive-integer argument
n overwrites the chat's threshold in Config with n and persists it; a
non-numeric or non-positive argument replies with the usage hint and
leaves the state unchanged. -/
theorem C8_setlimit (d : Int) (st : BotState) (ck a : String) (rest : List String) :
    (∀ n : Int, pyInt a = some n → 0 < n →
      setlimit_cmd d st "group" ck true (a :: rest) =
        (⟨st.players, st.pending, tinsert st.config ck n, st.last_round⟩,
         [Effect.persistConfig (tinsert st.config ck n), Effect.replyLimitSet n]) ∧
      get_max_players_for_chat d
        (setlimit_cmd d st "group" ck true (a :: rest)).1.config ck = n) ∧
    ((pyInt a = none ∨ ∃ n : Int, pyInt a = some n ∧ n ≤ 0) →
      setlimit_cmd d st "group" ck true (a :: rest) = (st, [Effect.replyUsage])) := by
  constructor
  · intro n hn hpos
    have hns : ¬ n ≤ 0 := by omega
    constructor
    · simp [setlimit_cmd, hn, hns]
    · simp [setlimit_cmd, hn, hns, get_max_players_for_chat, tget_tinsert_self]
  · rintro (hn | ⟨n, hn, hle⟩)
    · simp [setlimit_cmd, hn]
    · simp [setlimit_cmd, hn, hle]

/-- Witness for C8 at concrete arguments: `/setlimit 50` stores 50 and
persists it, `/setlimit 0` is rejected with the state unchanged. -/
theorem C8_witness :
    setlimit_cmd 100 ⟨[], [], [], []⟩ "group" "1" true ["50"] =
      (⟨[], [], [("1", 50)], []⟩,
       [Effect.persistConfig [("1", 50)], Effect.replyLimitSet 50]) ∧
    setlimit_cmd 100 ⟨[], [], [], []⟩ "group" "1" true ["0"] =
      (⟨[], [], [], []⟩, [Effect.replyUsage]) := by
  have h1 := (C8_setlimit 100 ⟨[], [], [], []⟩ "1" "50" []).1 50 (by decide) (by decide)
  have h2 := (C8_setlimit 100 ⟨[], [], [], []⟩ "1" "0" []).2
    (Or.inr ⟨0, by decide, by decide⟩)
  exact ⟨h1.1, h2⟩

/-- C9 counterexample: when the announcement send raises, the snapshot
step never runs, so after that execution the chat's snapshot still holds
the previous round — not this execution's `{result, winners}`. -/
theorem C9_counterexample :
    tget (execute_round ⟨[("1", [("7", ⟨"@u", 5⟩)])], [], [], [("1", ⟨2, []⟩)]⟩
        "1" ⟨false, some 5, 1, true, false⟩).1.last_round "1" = some ⟨2, []⟩ ∧
    (⟨2, []⟩ : RoundInfo) ≠
      ⟨diceResult ⟨false, some 5, 1, true, false⟩,
       computeWinners [("7", ⟨"@u", 5⟩)] (diceResult ⟨false, some 5, 1, true, false⟩)⟩ := by
  decide

/-- C9 (amended): `execute_round` for one chat never touches any other
chat's snapshot, in every execution path; and whenever the dice call and
the announcement do not raise, the chat's own snapshot is overwritten
with exactly this execution's `{result, winners}`. -/
theorem C9_snapshot_frame (st : BotState) (ck : String) (env : ExecEnv) :
    (∀ c, c ≠ ck →
      tget (execute_round st ck env).1.last_round c = tget st.last_round c) ∧
    (env.sendDiceRaises = false → env.announceRaises = false →
      tget (execute_round st ck env).1.last_round ck =
        some ⟨diceResult env,
          computeWinners ((tget st.players ck).getD []) (diceResult env)⟩) := by
  constructor
  · intro c hc
    unfold execute_round
    cases h1 : env.sendDiceRaises <;> cases h2 : env.announceRaises <;>
      simp [h1, h2, tget_tinsert_ne _ _ _ _ hc]
  · intro h1 h2
    unfold execute_round
    simp [h1, h2, tget_tinsert_self]

/-- Witness for C9 at a concrete state: chat "1" executes, chat "2"'s
snapshot is untouched, and chat "1"'s snapshot holds the new result. -/
theorem C9_witness :
    tget (execute_round
        ⟨[("1", [("7", ⟨"@u", 5⟩)])], [], [], [("1", ⟨2, []⟩), ("2", ⟨6, []⟩)]⟩
        "1" ⟨false, some 5, 1, false, false⟩).1.last_round "2" = some ⟨6, []⟩ ∧
    tget (execute_round
        ⟨[("1", [("7", ⟨"@u", 5⟩)])], [], [], [("1", ⟨2, []⟩), ("2", ⟨6, []⟩)]⟩
        "1" ⟨false, some 5, 1, false, false⟩).1.last_round "1" = some ⟨5, ["@u"]⟩ := by
  have h := C9_snapshot_frame
    ⟨[("1", [("7", ⟨"@u", 5⟩)])], [], [], [("1", ⟨2, []⟩), ("2", ⟨6, []⟩)]⟩
    "1" ⟨false, some 5, 1, false, false⟩
  constructor
  · rw [h.1 "2" (by decide)]
    rfl
  · exact h.2 rfl rfl

/-- C10: the admin `/reset` removes only the invoking chat's entry set
from the Players table, leaving Pending, Config and LastRound untouched —
so a payment confirmed after the reset still consumes its token and
registers the payer into the chat's new round. -/
theorem C10_reset_frame (d : Int) (st : BotState) (ck tok : String)
    (pr : PendingRec) (htok : tok ≠ "")
    (hpr : tget st.pending tok = some pr) (hck : pr.chat_id = ck) :
    (reset_cmd st "group" ck true).1.players = tpop st.players ck ∧
    (reset_cmd st "group" ck true).1.pending = st.pending ∧
    (reset_cmd st "group" ck true).1.config = st.config ∧
    (reset_cmd st "group" ck true).1.last_round = st.last_round ∧
    tget (successful_payment_handler d (reset_cmd st "group" ck true).1
        (some tok)).1.pending tok = none ∧
    tget ((tget (successful_payment_handler d (reset_cmd st "group" ck true).1
        (some tok)).1.players ck).getD []) pr.user_id =
      some ⟨pr.username, pr.choice⟩ := by
  subst hck
  have hst1 : (reset_cmd st "group" pr.chat_id true).1 =
      ⟨tpop st.players pr.chat_id, st.pending, st.config, st.last_round⟩ := by
    simp [reset_cmd]
  refine ⟨by rw [hst1], by rw [hst1], by rw [hst1], by rw [hst1], ?_, ?_⟩
  · rw [hst1]
    simp only [successful_payment_handler, htok, if_false, hpr]
    exact tget_tpop_self _ _
  · rw [hst1]
    simp only [successful_payment_handler, htok, if_false, hpr]
    rw [tget_tinsert_self]
    simp [tget_tinsert_self]

/-- Witness for C10 at a concrete state: reset clears the old round but
keeps the pending token, and the subsequent payment registers the payer. -/
theorem C10_witness :
    (reset_cmd ⟨[("1", [("9", ⟨"@old", 2⟩)])], [("tok", ⟨"1", "7", "@a", 3⟩)], [], []⟩
        "group" "1" true).1.pending = [("tok", ⟨"1", "7", "@a", 3⟩)] ∧
    tget ((tget (successful_payment_handler 100
        (reset_cmd ⟨[("1", [("9", ⟨"@old", 2⟩)])], [("tok", ⟨"1", "7", "@a", 3⟩)], [], []⟩
          "group" "1" true).1 (some "tok")).1.players "1").getD []) "7" =
      some ⟨"@a", 3⟩ := by
  have h := C10_reset_frame 100
    ⟨[("1", [("9", ⟨"@old", 2⟩)])], [("tok", ⟨"1", "7", "@a", 3⟩)], [], []⟩
    "1" "tok" ⟨"1", "7", "@a", 3⟩ (by decide) (by decide) rfl
  exact ⟨h.2.1, h.2.2.2.2.2⟩
